import Mathlib

/-!
Verification of the CartoonBuilder molecule-builder core
(`src/molecule-builder-app.py`), shallowly embedded in Lean 4.

Modelling conventions:
* Python `dict`s are insertion-ordered association lists `List (String × α)`
  with unique keys; `dlookup` is key lookup and `dinsert` is `d[k] = v`
  (update in place if the key is present, append otherwise — Python dict
  assignment semantics).
* 2D coordinates are modelled as `ℚ × ℚ`.  The source uses Python floats,
  but every coordinate computation in the program is
  `point + vector * 1.0` on small integer-valued inputs, which is exact in
  floating point, so rationals are a faithful model for the properties
  studied here.
* `raise ValueError(...)` is modelled with `Except BuilderError`.  In the
  source every `raise` happens before any mutation, so an `.error` result
  carries no modified state, exactly as in Python.
* Rendering (`visualize_molecule`) is modelled by the ordered list of draw
  calls it issues (`renderOps`): one `DrawOp` per `draw_shape` invocation,
  carrying the shape tag, position, color and label passed to it.
-/

set_option autoImplicit false

namespace CartoonBuilder

universe u v

variable {α : Type u}

instance {ε : Type u} {σ : Type v} [DecidableEq ε] [DecidableEq σ] :
    DecidableEq (Except ε σ) := fun x y =>
  match x, y with
  | .ok a, .ok b =>
    if h : a = b then isTrue (by rw [h]) else isFalse (by simp [h])
  | .error a, .error b =>
    if h : a = b then isTrue (by rw [h]) else isFalse (by simp [h])
  | .ok _, .error _ => isFalse (by simp)
  | .error _, .ok _ => isFalse (by simp)

/-- Key lookup in an insertion-ordered dict (`d.get(k)` / `k in d`). -/
def dlookup (k : String) : List (String × α) → Option α
  | [] => none
  | (k', v) :: rest => if k' = k then some v else dlookup k rest

/-- Dict assignment `d[k] = v`: overwrite in place when the key exists,
append at the end otherwise. -/
def dinsert (k : String) (v : α) : List (String × α) → List (String × α)
  | [] => [(k, v)]
  | (k', v') :: rest => if k' = k then (k', v) :: rest else (k', v') :: dinsert k v rest

/-- `@dataclass MolecularComponent` (src lines 11–16). -/
structure MolecularComponent where
  name : String
  shape : String
  color : String
  label : String
  deriving DecidableEq, Repr

/-- `@dataclass AttachmentPoint` (src lines 18–21). -/
structure AttachmentPoint where
  name : String
  position : ℚ × ℚ
  deriving DecidableEq, Repr

/-- An attachment map: attachment-point name ↦ ordered list of
`(component, direction)` pairs (src lines 27–28). -/
abbrev AttachMap := List (String × List (MolecularComponent × String))

/-- `@dataclass Molecule` (src lines 23–28).  In the source
`molecule.attachment_points` aliases the builder's own
`attachment_points` dict (they are the same object); the embedding keeps
both fields and updates them together wherever the source mutates the
shared dict. -/
structure Molecule where
  scaffold : MolecularComponent
  attachment_points : List (String × AttachmentPoint)
  attached_sugars : AttachMap
  attached_substituents : AttachMap
  deriving DecidableEq, Repr

/-- The mutable state of `class MoleculeBuilder` (src lines 30–69). -/
structure MoleculeBuilder where
  scaffolds : List (String × MolecularComponent)
  sugars : List (String × MolecularComponent)
  substituents : List (String × MolecularComponent)
  attachment_points : List (String × AttachmentPoint)
  molecule : Molecule
  deriving DecidableEq, Repr

/-- The typed failures raised (as `ValueError`) by the builder's
operations; the constructor names follow the spec's error kinds. -/
inductive BuilderError where
  | invalidShape (shape : String)
  | invalidColor (color : String)
  | duplicateAttachmentPoint (name : String)
  | unknownAttachmentPoint (name : String)
  | unknownComponent (name : String) (category : String)
  deriving DecidableEq, Repr

/-- The default attachment-point registry built in `__init__`
(src lines 57–63).  Note that the entries at keys `FRight` and `SRight`
both carry the stored name `FR`, and `FLeft`/`SLeft` both carry `FL`. -/
def defaultAttachmentPoints : List (String × AttachmentPoint) :=
  [("Zero", ⟨"Zero", (0, 0)⟩),
   ("FRight", ⟨"FR", (1, 0)⟩),
   ("FLeft", ⟨"FL", (-1, 0)⟩),
   ("SRight", ⟨"FR", (2, 0)⟩),
   ("SLeft", ⟨"FL", (-2, 0)⟩)]

/-- `MoleculeBuilder.__init__` (src lines 31–69): the default registries
and the initial molecule (scaffold `QA`, empty attachment maps). -/
def MoleculeBuilder.init : MoleculeBuilder where
  scaffolds :=
    [("QA", ⟨"QA", "hexagon", "lime", "QA"⟩),
     ("QA-OH", ⟨"QA", "hexagon", "limegreen", "QA-OH"⟩),
     ("BA", ⟨"BA", "hexagon", "red", "BA"⟩),
     ("P", ⟨"BA", "hexagon", "gray", "P"⟩),
     ("P-Ac", ⟨"BA", "hexagon", "gainsboro", "P-Ac"⟩),
     ("G", ⟨"BA", "hexagon", "magenta", "G"⟩),
     ("E", ⟨"BA", "hexagon", "goldenrod", "E"⟩),
     ("E-A", ⟨"BA", "hexagon", "gold", "E-A"⟩)]
  sugars :=
    [("XYL", ⟨"XYL", "circle", "#228B22", "Xyl"⟩),
     ("FUC", ⟨"FUC", "circle", "#DC143C", "Fuc"⟩),
     ("GLU", ⟨"GLU", "circle", "#9370DB", "Glu"⟩),
     ("RHA", ⟨"RHA", "circle", "#FFD700", "Rha"⟩),
     ("ARA", ⟨"RHA", "circle", "cyan", "Ara"⟩),
     ("GAL", ⟨"RHA", "circle", "orange", "Gal"⟩)]
  substituents :=
    [("H", ⟨"H", "circle", "none", "H"⟩),
     ("Acyl", ⟨"Acyl", "circle", "none", "Ac"⟩),
     ("OH", ⟨"OH", "circle", "none", "OH"⟩),
     ("OHMeHex", ⟨"OHMeHex", "circle", "none", "OHMeHex"⟩)]
  attachment_points := defaultAttachmentPoints
  molecule :=
    { scaffold := ⟨"QA", "hexagon", "lime", "QA"⟩
      attachment_points := defaultAttachmentPoints
      attached_sugars := []
      attached_substituents := [] }

/-- `add_attachment_point` (src lines 70–73): reject a duplicate name,
otherwise store `AttachmentPoint(name, position)` under `name`.  The
molecule's aliased view of the dict is updated along with the builder's. -/
def add_attachment_point (b : MoleculeBuilder) (name : String) (position : ℚ × ℚ) :
    Except BuilderError MoleculeBuilder :=
  match dlookup name b.attachment_points with
  | some _ => .error (.duplicateAttachmentPoint name)
  | none =>
    let pts := dinsert name ⟨name, position⟩ b.attachment_points
    .ok { b with
            attachment_points := pts
            molecule := { b.molecule with attachment_points := pts } }

/-- `VALID_SHAPES` (src line 76). -/
def VALID_SHAPES : List String := ["hexagon", "circle"]

/-- Model of the call `plt.plot(c=color)` on src line 80 (the intended
"Matplotlib-compatible color validation"): whether it raises
`ValueError`.  It never does, for any string: `pyplot.plot` with no
positional data arguments iterates over an empty argument list and
returns an empty line list without ever parsing its keyword arguments
(`_process_plot_var_args.__call__` returns before touching `kwargs`
when `args` is empty), so the `c=color` keyword is never validated and
no exception is ever raised. -/
def plt_plot_color_kwarg_raises (color : String) : Bool :=
  false

/-- `add_component` (src lines 75–90): validate the shape, run the
(ineffective) color check, then insert the component into the registry
selected by `category`; an unrecognized category inserts nowhere. -/
def add_component (b : MoleculeBuilder)
    (name shape color label category : String) :
    Except BuilderError MoleculeBuilder :=
  if shape ∉ VALID_SHAPES then
    .error (.invalidShape shape)
  else if plt_plot_color_kwarg_raises color then
    .error (.invalidColor color)
  else
    let component : MolecularComponent := ⟨name, shape, color, label⟩
    if category = "Sugar" then
      .ok { b with sugars := dinsert name component b.sugars }
    else if category = "Substituent" then
      .ok { b with substituents := dinsert name component b.substituents }
    else if category = "Scaffold" then
      .ok { b with scaffolds := dinsert name component b.scaffolds }
    else
      .ok b

/-- The map update performed by `attach_component` on success
(src lines 101–108): `if pp not in d: d[pp] = []` followed by
`d[pp].append((component, direction))` — append the pair at the end of
the sequence for the key, creating the sequence when absent. -/
def appendAttachment (k : String) (v : MolecularComponent × String)
    (m : AttachMap) : AttachMap :=
  dinsert k ((dlookup k m).getD [] ++ [v]) m

/-- `attach_component` (src lines 92–108): unknown attachment point and
unknown component are rejected before any mutation; otherwise the
`(component, direction)` pair is appended to the map selected by
`category`.  As in the source, the component is looked up in `sugars`
when `category == "Sugar"` and in `substituents` for every other
category string. -/
def attach_component (b : MoleculeBuilder)
    (parent_point component_name direction category : String) :
    Except BuilderError MoleculeBuilder :=
  match dlookup parent_point b.attachment_points with
  | none => .error (.unknownAttachmentPoint parent_point)
  | some _ =>
    match (if category = "Sugar" then dlookup component_name b.sugars
           else dlookup component_name b.substituents) with
    | none => .error (.unknownComponent component_name category)
    | some component =>
      if category = "Sugar" then
        .ok { b with molecule := { b.molecule with
                attached_sugars :=
                  appendAttachment parent_point (component, direction)
                    b.molecule.attached_sugars } }
      else
        .ok { b with molecule := { b.molecule with
                attached_substituents :=
                  appendAttachment parent_point (component, direction)
                    b.molecule.attached_substituents } }

/-- Scaffold replacement (`builder.molecule.scaffold = builder.scaffolds[scaffold]`,
src line 304; `setScaffold` in the spec): unconditional by-value
replacement of the molecule's scaffold. -/
def set_scaffold (b : MoleculeBuilder) (c : MolecularComponent) : MoleculeBuilder :=
  { b with molecule := { b.molecule with scaffold := c } }

/-- The direction-vector table with its `.get(direction, (1, 0))` default
(src lines 155–160 and 177–182). -/
def directionVector (direction : String) : ℚ × ℚ :=
  if direction = "Right" then (1, 0)
  else if direction = "Left" then (-1, 0)
  else if direction = "Up" then (0, 1)
  else if direction = "Down" then (0, -1)
  else (1, 0)

/-- The position computed for one attached component inside the render
loops (src lines 161–164 and 183–186):
`attachment_points[point].position + direction_vector * 1.0`.  The loop
index `i` (bound by `enumerate`) is a parameter of the loop body but is
unused by the active code — the `* (i + 1)` factor is commented out in
the source. -/
def componentPosition (pointPos : ℚ × ℚ) (direction : String) (i : ℕ) : ℚ × ℚ :=
  (pointPos.1 + (directionVector direction).1 * 1,
   pointPos.2 + (directionVector direction).2 * 1)

/-- One call to `draw_shape` (src lines 110–129), recorded with the
arguments it receives. -/
structure DrawOp where
  shape : String
  position : ℚ × ℚ
  color : String
  label : String
  deriving DecidableEq, Repr

/-- The draw calls issued by one of the two attachment loops of
`visualize_molecule` (src lines 149–168 for sugars, 171–190 for
substituents): for each point in insertion order, each attached
`(component, direction)` in sequence order is drawn at
`componentPosition`.  A key absent from the point registry would raise
`KeyError` in Python; that case is unreachable because `attach_component`
checks membership, and the model totalizes it with a dummy point. -/
def drawAttachedOps (pts : List (String × AttachmentPoint))
    (attached : AttachMap) : List DrawOp :=
  attached.flatMap fun pc =>
    let pointPos := ((dlookup pc.1 pts).getD ⟨"", (0, 0)⟩).position
    pc.2.enum.map fun ic =>
      { shape := ic.2.1.shape
        position := componentPosition pointPos ic.2.2 ic.1
        color := ic.2.1.color
        label := ic.2.1.label }

/-- The ordered sequence of draw calls issued by `visualize_molecule`
(src lines 132–202): the scaffold at the origin `(0, 0)` with its own
shape, color and label, then every attached sugar, then every attached
substituent. -/
def renderOps (b : MoleculeBuilder) : List DrawOp :=
  { shape := b.molecule.scaffold.shape
    position := (0, 0)
    color := b.molecule.scaffold.color
    label := b.molecule.scaffold.label } ::
  (drawAttachedOps b.attachment_points b.molecule.attached_sugars ++
   drawAttachedOps b.attachment_points b.molecule.attached_substituents)

/-- Modelled from the spec: the color validity predicate the spec
ascribes to `addComponent` — "color parses as a valid named or hex color
value OR equals the sentinel none".  The actual parser is matplotlib's,
which is external to this repository; this model accepts the sentinel
`"none"`, `#RRGGBB` hex strings, and a fixed table of color names
covering every name the source itself uses plus the standard base
colors. -/
def specColorIsValid (color : String) : Bool :=
  color == "none" ||
  (match color.data with
   | '#' :: rest =>
     rest.length == 6 &&
       rest.all fun c =>
         c.isDigit || ('a' ≤ c && c ≤ 'f') || ('A' ≤ c && c ≤ 'F')
   | _ => false) ||
  (["lime", "limegreen", "red", "gray", "gainsboro", "magenta",
    "goldenrod", "gold", "cyan", "orange", "black", "white",
    "blue", "green", "yellow", "purple", "pink", "brown"] : List String).contains color

/-- The states of the builder reachable through its public operations,
starting from `MoleculeBuilder.init`. -/
inductive Reachable : MoleculeBuilder → Prop where
  | init : Reachable MoleculeBuilder.init
  | addPoint (b b' : MoleculeBuilder) (n : String) (p : ℚ × ℚ) :
      Reachable b → add_attachment_point b n p = .ok b' → Reachable b'
  | addComp (b b' : MoleculeBuilder) (n s c l cat : String) :
      Reachable b → add_component b n s c l cat = .ok b' → Reachable b'
  | attach (b b' : MoleculeBuilder) (pt c d cat : String) :
      Reachable b → attach_component b pt c d cat = .ok b' → Reachable b'
  | setScaffold (b : MoleculeBuilder) (c : MolecularComponent) :
      Reachable b → Reachable (set_scaffold b c)

/-! ### Dictionary lemmas -/

theorem dlookup_eq_none_iff (k : String) :
    ∀ l : List (String × α), dlookup k l = none ↔ k ∉ l.map Prod.fst
  | [] => by simp [dlookup]
  | (k', v') :: rest => by
    simp only [dlookup, List.map_cons, List.mem_cons, not_or]
    split
    next heq => subst heq; simp
    next hne =>
      rw [dlookup_eq_none_iff k rest]
      have : ¬ k = k' := fun h => hne h.symm
      simp [this]

theorem dinsert_of_lookup_none (k : String) (v : α) :
    ∀ l : List (String × α), dlookup k l = none → dinsert k v l = l ++ [(k, v)]
  | [], _ => rfl
  | (k', v') :: rest, h => by
    unfold dlookup at h
    unfold dinsert
    split at h
    next heq => exact absurd h (by simp)
    next hne => rw [if_neg hne, dinsert_of_lookup_none k v rest h]; rfl

theorem dlookup_dinsert_self (k : String) (v : α) :
    ∀ l : List (String × α), dlookup k (dinsert k v l) = some v
  | [] => by simp [dinsert, dlookup]
  | (k', v') :: rest => by
    unfold dinsert
    split
    next heq => simp [dlookup, heq]
    next hne =>
      simp only [dlookup, if_neg hne]
      exact dlookup_dinsert_self k v rest

theorem nodup_keys_append_fresh {l : List (String × α)} {k : String} {v : α}
    (hn : (l.map Prod.fst).Nodup) (hk : dlookup k l = none) :
    (((l ++ [(k, v)]).map Prod.fst)).Nodup := by
  rw [List.map_append, List.nodup_append]
  refine ⟨hn, by simp, ?_⟩
  intro a ha hb
  simp only [List.map_cons, List.map_nil, List.mem_singleton] at hb
  exact (dlookup_eq_none_iff k l).mp hk (hb ▸ ha)

/-- After a successful `add_attachment_point`, the key was fresh and the
registry grew by exactly the new entry at the end. -/
theorem add_attachment_point_ok {b b' : MoleculeBuilder} {n : String} {p : ℚ × ℚ}
    (h : add_attachment_point b n p = .ok b') :
    dlookup n b.attachment_points = none ∧
    b'.attachment_points = b.attachment_points ++ [(n, ⟨n, p⟩)] := by
  unfold add_attachment_point at h
  split at h
  next => exact absurd h (by simp)
  next hx =>
    injection h with h
    subst h
    exact ⟨hx, dinsert_of_lookup_none n ⟨n, p⟩ b.attachment_points hx⟩

/-- `add_component` never touches the attachment-point registry. -/
theorem add_component_attachment_points {b b' : MoleculeBuilder}
    {n s c l cat : String} (h : add_component b n s c l cat = .ok b') :
    b'.attachment_points = b.attachment_points := by
  simp only [add_component] at h
  split_ifs at h <;> injection h with h <;> subst h <;> rfl

/-- `attach_component` never touches the attachment-point registry. -/
theorem attach_component_attachment_points {b b' : MoleculeBuilder}
    {pt c d cat : String} (h : attach_component b pt c d cat = .ok b') :
    b'.attachment_points = b.attachment_points := by
  unfold attach_component at h
  split at h
  next => exact absurd h (by simp)
  next =>
    split at h
    next => exact absurd h (by simp)
    next =>
      split_ifs at h <;> injection h with h <;> subst h <;> rfl

/-- The sequence stored for `k` after `appendAttachment k v` is the old
sequence (empty when absent) with `v` appended at the end. -/
theorem dlookup_appendAttachment (k : String) (v : MolecularComponent × String)
    (m : AttachMap) :
    dlookup k (appendAttachment k v m) = some ((dlookup k m).getD [] ++ [v]) :=
  dlookup_dinsert_self k _ m

/-! ### Claim theorems -/

/-- C1: refuted on the code.  The claim says `add_component` fails with
`InvalidColor` exactly when the color neither parses nor equals `"none"`;
in fact the color check `plt.plot(c=color)` can never raise, so
`add_component` never fails with `InvalidColor` for any input, and at the
failing input the unparseable color `"notacolor"` is accepted and the
component is inserted into the sugar registry, although the
spec-modelled color predicate rejects that color. -/
theorem c1_invalid_color_never_raised :
    specColorIsValid "notacolor" = false ∧
    (∀ (b : MoleculeBuilder) (name shape color label category : String),
      add_component b name shape color label category ≠
        .error (.invalidColor color)) ∧
    (add_component MoleculeBuilder.init "X" "circle" "notacolor" "X" "Sugar").map
        (fun b => dlookup "X" b.sugars) =
      .ok (some ⟨"X", "circle", "notacolor", "X"⟩) := by
  refine ⟨by decide, ?_, by decide⟩
  intro b name shape color label category h
  simp only [add_component, plt_plot_color_kwarg_raises, Bool.false_eq_true,
    if_false] at h
  split_ifs at h <;> simp at h

/-- C2: the resolved draw position of an attached component is the
attachment point's position plus the direction vector scaled by `1.0`,
independent of the enumeration index; consequently two sugars attached at
the same point with the same direction render at exactly equal
coordinates (checked concretely on `XYL` and `FUC` both attached at
`Zero` with direction `Up`). -/
theorem c2_position_formula_index_independent
    (pointPos : ℚ × ℚ) (d : String) (i j : ℕ) :
    componentPosition pointPos d i =
      (pointPos.1 + (directionVector d).1 * 1,
       pointPos.2 + (directionVector d).2 * 1) ∧
    componentPosition pointPos d i = componentPosition pointPos d j ∧
    ((attach_component MoleculeBuilder.init "Zero" "XYL" "Up" "Sugar").bind
        (fun b => attach_component b "Zero" "FUC" "Up" "Sugar")).map renderOps =
      .ok [⟨"hexagon", (0, 0), "lime", "QA"⟩,
           ⟨"circle", (0, 1), "#228B22", "Xyl"⟩,
           ⟨"circle", (0, 1), "#DC143C", "Fuc"⟩] :=
  ⟨rfl, rfl, by
    simp [attach_component, appendAttachment, dinsert, dlookup, renderOps,
      drawAttachedOps, componentPosition, directionVector, MoleculeBuilder.init,
      defaultAttachmentPoints, Except.map, Except.bind, List.enum,
      List.enumFrom]⟩

/-- C4: any direction string outside `Up`, `Down`, `Left`, `Right`
resolves a position exactly as direction `Right` does, at every
attachment-point position and index. -/
theorem c4_unrecognized_direction_defaults_to_right
    (pointPos : ℚ × ℚ) (i : ℕ) (d : String)
    (h : d ∉ (["Up", "Down", "Left", "Right"] : List String)) :
    componentPosition pointPos d i = componentPosition pointPos "Right" i := by
  simp only [List.mem_cons, List.not_mem_nil, or_false, not_or] at h
  obtain ⟨h1, h2, h3, h4⟩ := h
  simp [componentPosition, directionVector, h1, h2, h3, h4]

/-- Witness for C4 at the concrete directions `"Sideways"` and `""`. -/
theorem c4_unrecognized_direction_defaults_to_right_witness :
    ("Sideways" ∉ (["Up", "Down", "Left", "Right"] : List String)) ∧
    componentPosition ((3 : ℚ), (5 : ℚ)) "Sideways" 2 =
      componentPosition (3, 5) "Right" 2 ∧
    ("" ∉ (["Up", "Down", "Left", "Right"] : List String)) ∧
    componentPosition ((3 : ℚ), (5 : ℚ)) "" 0 =
      componentPosition (3, 5) "Right" 0 :=
  ⟨by decide,
   c4_unrecognized_direction_defaults_to_right (3, 5) 2 "Sideways" (by decide),
   by decide,
   c4_unrecognized_direction_defaults_to_right (3, 5) 0 "" (by decide)⟩

/-- C6: in the default builder state, the point registered under key
`FRight` has position `(1, 0)`, and attaching the substituent `OH` there
with direction `Right` renders it at exactly `(2, 0)` — the point's
position plus the `Right` vector — and not at `(1, 0)`. -/
theorem c6_oh_at_fright_renders_at_two_zero :
    dlookup "FRight" MoleculeBuilder.init.attachment_points =
      some ⟨"FR", (1, 0)⟩ ∧
    (attach_component MoleculeBuilder.init "FRight" "OH" "Right" "Substituent").map
        renderOps =
      .ok [⟨"hexagon", (0, 0), "lime", "QA"⟩,
           ⟨"circle", (2, 0), "none", "OH"⟩] ∧
    ((2 : ℚ), (0 : ℚ)) ≠ ((1 : ℚ), (0 : ℚ)) :=
  ⟨by decide,
   by
     simp [attach_component, appendAttachment, dinsert, dlookup, renderOps,
       drawAttachedOps, componentPosition, directionVector, MoleculeBuilder.init,
       defaultAttachmentPoints, Except.map, List.enum, List.enumFrom]
     norm_num,
   by decide⟩

/-- C8: the rendered draw sequence starts with the scaffold's own shape,
color and label at the origin `(0, 0)`, followed by the draw calls for
all attached sugars and only then the draw calls for all attached
substituents. -/
theorem c8_scaffold_first_sugars_before_substituents (b : MoleculeBuilder) :
    renderOps b =
      { shape := b.molecule.scaffold.shape
        position := ((0 : ℚ), (0 : ℚ))
        color := b.molecule.scaffold.color
        label := b.molecule.scaffold.label } ::
      (drawAttachedOps b.attachment_points b.molecule.attached_sugars ++
       drawAttachedOps b.attachment_points b.molecule.attached_substituents) :=
  rfl

/-- C9: rendering is deterministic — the draw sequence is a function of
the molecule state and the attachment-point registry alone, so two
renders of equal states (in particular two renders of the same state
with no intervening mutation) produce identical sequences of shapes,
positions, colors and labels. -/
theorem c9_render_deterministic (b1 b2 : MoleculeBuilder)
    (hmol : b1.molecule = b2.molecule)
    (hpts : b1.attachment_points = b2.attachment_points) :
    renderOps b1 = renderOps b2 := by
  unfold renderOps
  rw [hmol, hpts]

/-- Witness for C9: two renders of the default state coincide. -/
theorem c9_render_deterministic_witness :
    MoleculeBuilder.init.molecule = MoleculeBuilder.init.molecule ∧
    MoleculeBuilder.init.attachment_points =
      MoleculeBuilder.init.attachment_points ∧
    renderOps MoleculeBuilder.init = renderOps MoleculeBuilder.init :=
  ⟨rfl, rfl, c9_render_deterministic MoleculeBuilder.init MoleculeBuilder.init rfl rfl⟩

/-- C3: `attach_component` fails with `UnknownAttachmentPoint` when the
point is unregistered, fails with `UnknownComponent` when the component
is absent from the registry selected by the category, and otherwise
appends the `(component, direction)` pair at the end of the ordered
sequence for the point in the map selected by the category, creating the
sequence if absent; failures return an error and produce no mutated
state. -/
theorem c3_attach_component_contract (b : MoleculeBuilder)
    (pt comp dir cat : String)
    (hcat : cat = "Sugar" ∨ cat = "Substituent") :
    (dlookup pt b.attachment_points = none →
      attach_component b pt comp dir cat =
        .error (.unknownAttachmentPoint pt)) ∧
    (∀ q : AttachmentPoint, dlookup pt b.attachment_points = some q →
      ((if cat = "Sugar" then dlookup comp b.sugars
        else dlookup comp b.substituents) = none →
        attach_component b pt comp dir cat =
          .error (.unknownComponent comp cat)) ∧
      (∀ c : MolecularComponent,
        (if cat = "Sugar" then dlookup comp b.sugars
         else dlookup comp b.substituents) = some c →
        attach_component b pt comp dir cat =
          .ok (if cat = "Sugar" then
                 { b with molecule := { b.molecule with
                     attached_sugars :=
                       appendAttachment pt (c, dir)
                         b.molecule.attached_sugars } }
               else
                 { b with molecule := { b.molecule with
                     attached_substituents :=
                       appendAttachment pt (c, dir)
                         b.molecule.attached_substituents } }) ∧
        (∀ m : AttachMap,
          dlookup pt (appendAttachment pt (c, dir) m) =
            some ((dlookup pt m).getD [] ++ [(c, dir)])))) := by
  refine ⟨fun h => ?_,
    fun q hq => ⟨fun hc => ?_,
      fun c hc => ⟨?_, fun m => dlookup_appendAttachment pt (c, dir) m⟩⟩⟩
  · unfold attach_component
    rw [h]
  · unfold attach_component
    rw [hq, hc]
  · unfold attach_component
    rw [hq, hc]
    by_cases hs : cat = "Sugar" <;> simp [hs]

/-- Witness for C3 at concrete inputs: unknown point, unknown sugar, and
a successful sugar attachment in the default state. -/
theorem c3_attach_component_contract_witness :
    attach_component MoleculeBuilder.init "Missing" "XYL" "Up" "Sugar" =
      .error (.unknownAttachmentPoint "Missing") ∧
    attach_component MoleculeBuilder.init "Zero" "NOPE" "Up" "Sugar" =
      .error (.unknownComponent "NOPE" "Sugar") ∧
    attach_component MoleculeBuilder.init "Zero" "XYL" "Up" "Sugar" =
      .ok { MoleculeBuilder.init with
              molecule := { MoleculeBuilder.init.molecule with
                attached_sugars :=
                  [("Zero",
                    [(⟨"XYL", "circle", "#228B22", "Xyl"⟩, "Up")])] } } := by
  have h1 := (c3_attach_component_contract MoleculeBuilder.init "Missing"
    "XYL" "Up" "Sugar" (Or.inl rfl)).1 (by decide)
  have h2 := ((c3_attach_component_contract MoleculeBuilder.init "Zero"
    "NOPE" "Up" "Sugar" (Or.inl rfl)).2 ⟨"Zero", (0, 0)⟩ (by decide)).1 (by decide)
  have h3 := (((c3_attach_component_contract MoleculeBuilder.init "Zero"
    "XYL" "Up" "Sugar" (Or.inl rfl)).2 ⟨"Zero", (0, 0)⟩ (by decide)).2
    ⟨"XYL", "circle", "#228B22", "Xyl"⟩ (by decide)).1
  exact ⟨h1, h2, h3.trans (congrArg Except.ok (by decide))⟩

/-- C7: `add_attachment_point` with a name already present always fails
with `DuplicateAttachmentPoint` (the stored entry is untouched, since
the error carries no new state); with a fresh name it inserts a new
`AttachmentPoint` bearing that name at the end of the registry. -/
theorem c7_add_attachment_point_contract (b : MoleculeBuilder) (n : String)
    (p : ℚ × ℚ) :
    (∀ q : AttachmentPoint, dlookup n b.attachment_points = some q →
      add_attachment_point b n p = .error (.duplicateAttachmentPoint n)) ∧
    (dlookup n b.attachment_points = none →
      ∃ b' : MoleculeBuilder, add_attachment_point b n p = .ok b' ∧
        b'.attachment_points = b.attachment_points ++ [(n, ⟨n, p⟩)] ∧
        dlookup n b'.attachment_points = some ⟨n, p⟩) := by
  constructor
  · intro q hq
    unfold add_attachment_point
    rw [hq]
  · intro h
    have hrw : add_attachment_point b n p =
        .ok { b with
                attachment_points := dinsert n ⟨n, p⟩ b.attachment_points
                molecule := { b.molecule with
                  attachment_points := dinsert n ⟨n, p⟩ b.attachment_points } } := by
      unfold add_attachment_point
      rw [h]
    refine ⟨_, hrw, ?_, ?_⟩
    · exact dinsert_of_lookup_none n ⟨n, p⟩ b.attachment_points h
    · exact dlookup_dinsert_self n ⟨n, p⟩ b.attachment_points

/-- Witness for C7: re-adding `Zero` fails with the duplicate error,
while a fresh name is inserted and retrievable. -/
theorem c7_add_attachment_point_contract_witness :
    add_attachment_point MoleculeBuilder.init "Zero" (5, 5) =
      .error (.duplicateAttachmentPoint "Zero") ∧
    ∃ b', add_attachment_point MoleculeBuilder.init "NewPoint" (0, 3) = .ok b' ∧
      b'.attachment_points =
        MoleculeBuilder.init.attachment_points ++ [("NewPoint", ⟨"NewPoint", (0, 3)⟩)] ∧
      dlookup "NewPoint" b'.attachment_points = some ⟨"NewPoint", (0, 3)⟩ :=
  ⟨(c7_add_attachment_point_contract MoleculeBuilder.init "Zero" (5, 5)).1
      ⟨"Zero", (0, 0)⟩ (by decide),
   (c7_add_attachment_point_contract MoleculeBuilder.init "NewPoint" (0, 3)).2
      (by decide)⟩

/-- C10: for any category string other than `Sugar` — `Scaffold` and
arbitrary strings included — `attach_component` looks the component up
in the substituent registry and, on success, appends the pair to
`attached_substituents`; the `Substituent` tag itself is never
compared. -/
theorem c10_non_sugar_category_uses_substituents (b : MoleculeBuilder)
    (pt comp dir cat : String) (hcat : cat ≠ "Sugar")
    (q : AttachmentPoint) (hq : dlookup pt b.attachment_points = some q) :
    (dlookup comp b.substituents = none →
      attach_component b pt comp dir cat =
        .error (.unknownComponent comp cat)) ∧
    (∀ c : MolecularComponent, dlookup comp b.substituents = some c →
      attach_component b pt comp dir cat =
        .ok { b with molecule := { b.molecule with
                attached_substituents :=
                  appendAttachment pt (c, dir)
                    b.molecule.attached_substituents } }) := by
  constructor
  · intro hc
    unfold attach_component
    rw [hq, if_neg hcat, hc]
  · intro c hc
    unfold attach_component
    rw [hq, if_neg hcat, hc]
    simp [hcat]

/-- Witness for C10 at category `Scaffold`: the sugar `XYL` is not found
(it is absent from the substituent registry), while the substituent `OH`
is attached into `attached_substituents`. -/
theorem c10_non_sugar_category_uses_substituents_witness :
    attach_component MoleculeBuilder.init "Zero" "XYL" "Up" "Scaffold" =
      .error (.unknownComponent "XYL" "Scaffold") ∧
    attach_component MoleculeBuilder.init "Zero" "OH" "Up" "Scaffold" =
      .ok { MoleculeBuilder.init with
              molecule := { MoleculeBuilder.init.molecule with
                attached_substituents :=
                  [("Zero", [(⟨"OH", "circle", "none", "OH"⟩, "Up")])] } } := by
  have h := c10_non_sugar_category_uses_substituents MoleculeBuilder.init
    "Zero" "XYL" "Up" "Scaffold" (by decide) ⟨"Zero", (0, 0)⟩ (by decide)
  have h' := c10_non_sugar_category_uses_substituents MoleculeBuilder.init
    "Zero" "OH" "Up" "Scaffold" (by decide) ⟨"Zero", (0, 0)⟩ (by decide)
  exact ⟨h.1 (by decide),
    (h'.2 ⟨"OH", "circle", "none", "OH"⟩ (by decide)).trans
      (congrArg Except.ok (by decide))⟩

/-- C5: refuted as stated.  In the default registry the stored
`AttachmentPoint` names are not unique: the entries at keys `FRight` and
`SRight` are distinct points that both carry the name `FR` (likewise
`FLeft`/`SLeft` both carry `FL`). -/
theorem c5_stored_names_not_unique_counterexample :
    ¬ ((MoleculeBuilder.init.attachment_points.map fun e => e.2.name).Nodup) ∧
    dlookup "FRight" MoleculeBuilder.init.attachment_points =
      some ⟨"FR", (1, 0)⟩ ∧
    dlookup "SRight" MoleculeBuilder.init.attachment_points =
      some ⟨"FR", (2, 0)⟩ := by decide

/-- C5 (amended): every attachment point is stored under a registry key
that is unique across the whole registry, in every reachable builder
state including the default one; it is the stored `name` fields that
fail to be unique in the default registry. -/
theorem c5_amended_registry_keys_unique (b : MoleculeBuilder)
    (h : Reachable b) : (b.attachment_points.map Prod.fst).Nodup := by
  induction h with
  | init => decide
  | addPoint b b' n p hr hok ih =>
    obtain ⟨hnone, heq⟩ := add_attachment_point_ok hok
    rw [heq]
    exact nodup_keys_append_fresh ih hnone
  | addComp b b' n s c l cat hr hok ih =>
    rw [add_component_attachment_points hok]
    exact ih
  | attach b b' pt c d cat hr hok ih =>
    rw [attach_component_attachment_points hok]
    exact ih
  | setScaffold b c hr ih => exact ih

/-- Witness for the amended C5 at the initial (reachable) state. -/
theorem c5_amended_registry_keys_unique_witness :
    Reachable MoleculeBuilder.init ∧
    (MoleculeBuilder.init.attachment_points.map Prod.fst).Nodup :=
  ⟨Reachable.init,
   c5_amended_registry_keys_unique MoleculeBuilder.init Reachable.init⟩

end CartoonBuilder
